import Mathlib

/-!
Verification development for the skarma karma-bot core
(`skarma/karma.py` and `skarma/message_parser.py`).

Database tables are rendered as row lists; SQL selects become list
filters, inserts become appends, updates become maps over the matching
rows. Python `datetime.utcnow()` is rendered as a pair of an absolute
UTC second count and a UTC calendar day. Python exceptions raised by
manager methods (`DatabaseError`, `NoSuchUser`) are rendered as
`Except String`; the `@catch_error` decorator on handlers, which
reports the exception and aborts the handler, is rendered by the
handler returning a `storageError` outcome with the state mutated so
far.

Methods that the repository imports from `skarma.api.karma` but whose
bodies are not part of the two source files (`MessagesManager`,
`KarmaManager.check_could_user_change_karma`,
`StatsManager.reset_user_reset_last_karma_change`,
`StatsManager.get_karma_changes_today`) are modelled from the spec;
each such definition carries a doc comment saying so.
-/

namespace Skarma

/-- A UTC instant: absolute seconds (for timestamp arithmetic via
`total_seconds()`) together with the calendar day (for `date()` /
`UTC_DATE`). Stands for Python `datetime.utcnow()`. -/
structure DateTime where
  seconds : Int
  day : Int
deriving DecidableEq

/-- One row of the `karma` table: per-(chat, user) score. -/
structure KarmaRow where
  chat_id : Int
  user_id : Int
  karma : Int
deriving DecidableEq

/-- One row of the `stats` table: per-(chat, user) activity ledger. -/
structure StatsRow where
  chat_id : Int
  user_id : Int
  last_karma_change : Int
  today : Int
  today_karma_changes : Int
deriving DecidableEq

/-- Rows of the `karma` table matching a (chat, user) key, i.e. the SQL
`select ... from karma where chat_id = %s and user_id = %s`. -/
def karmaRowsFor (t : List KarmaRow) (chat_id user_id : Int) : List KarmaRow :=
  t.filter (fun r => r.chat_id == chat_id && r.user_id == user_id)

/-- Rows of the `stats` table matching a (chat, user) key. -/
def statsRowsFor (t : List StatsRow) (chat_id user_id : Int) : List StatsRow :=
  t.filter (fun r => r.chat_id == chat_id && r.user_id == user_id)

/-- Source `UsernamesManager.set_username`: the SQL upsert
`insert into usernames (user_id, name) values ... on duplicate key update name = ...`,
keyed on `user_id`. -/
def set_username (t : List (Int × String)) (id_ : Int) (name : String) : List (Int × String) :=
  if t.any (fun p => p.1 == id_) then
    t.map (fun p => if p.1 == id_ then (p.1, name) else p)
  else
    t ++ [(id_, name)]

/-- Source `UsernamesManager.get_username_by_id`: raises `NoSuchUser` when no row
matches and `DatabaseError` when several do. -/
def get_username_by_id (t : List (Int × String)) (id_ : Int) : Except String String :=
  match t.filter (fun p => p.1 == id_) with
  | [] => Except.error "NoSuchUser"
  | [p] => Except.ok p.2
  | _ => Except.error "Too many names associated with user"

/-- Source `KarmaManager.get_user_karma`: 0 when no row exists, the stored score
when exactly one row exists, `DatabaseError` otherwise. -/
def get_user_karma (t : List KarmaRow) (chat_id user_id : Int) : Except String Int :=
  match karmaRowsFor t chat_id user_id with
  | [] => Except.ok 0
  | [r] => Except.ok r.karma
  | _ => Except.error "Invalid database response for getting user karma"

/-- Source `KarmaManager.change_user_karma`: select, then insert a fresh row with
`karma = change` when none exists, otherwise
`update karma set karma = karma + change where chat_id = ... and user_id = ...`. -/
def change_user_karma (t : List KarmaRow) (chat_id user_id change : Int) : List KarmaRow :=
  if (karmaRowsFor t chat_id user_id).isEmpty then
    t ++ [⟨chat_id, user_id, change⟩]
  else
    t.map (fun r => if r.chat_id == chat_id && r.user_id == user_id then
      { r with karma := r.karma + change } else r)

/-- Source `KarmaManager.increase_user_karma`. -/
def increase_user_karma (t : List KarmaRow) (chat_id user_id up_change : Int) : List KarmaRow :=
  change_user_karma t chat_id user_id up_change

/-- Source `KarmaManager.decrease_user_karma`. -/
def decrease_user_karma (t : List KarmaRow) (chat_id user_id down_change : Int) : List KarmaRow :=
  change_user_karma t chat_id user_id (-down_change)

/-- Source `KarmaManager.get_ordered_karma_top`: the SQL
`select distinct user_id, karma from karma where chat_id = %s and karma > 0
order by karma desc limit %s` (and the `< 0` / `asc` variant for
`biggest = false`). The engine-unspecified order among equal scores is
rendered by a stable merge sort over the table order. -/
def get_ordered_karma_top (t : List KarmaRow) (chat_id : Int) (amount : Nat) (biggest : Bool) :
    List (Int × Int) :=
  match biggest with
  | true =>
    ((((t.filter (fun r => r.chat_id == chat_id && decide (0 < r.karma))).map
        (fun r => (r.user_id, r.karma))).dedup.insertionSort
        (fun a b => b.2 ≤ a.2)).take amount)
  | false =>
    ((((t.filter (fun r => r.chat_id == chat_id && decide (r.karma < 0))).map
        (fun r => (r.user_id, r.karma))).dedup.insertionSort
        (fun a b => a.2 ≤ b.2)).take amount)

/-- Source `StatsManager.handle_user_change_karma`: raises `DatabaseError` when
several stats rows match; inserts `(now, date(now), 1)` when none does;
otherwise increments `today_karma_changes` when the stored day is today and
resets it to 1 with the new day otherwise, always stamping
`last_karma_change`. The source updates by the selected row id; with the
one-row-per-key schema this is the unique matching (chat, user) row. -/
def handle_user_change_karma (t : List StatsRow) (chat_id user_id : Int) (now : DateTime) :
    Except String (List StatsRow) :=
  match statsRowsFor t chat_id user_id with
  | [] => Except.ok (t ++ [⟨chat_id, user_id, now.seconds, now.day, 1⟩])
  | [r] =>
    if r.today = now.day then
      Except.ok (t.map (fun x => if x.chat_id == chat_id && x.user_id == user_id then
        { x with today_karma_changes := x.today_karma_changes + 1,
                 last_karma_change := now.seconds } else x))
    else
      Except.ok (t.map (fun x => if x.chat_id == chat_id && x.user_id == user_id then
        { x with today := now.day, today_karma_changes := 1,
                 last_karma_change := now.seconds } else x))
  | _ => Except.error "Invalid database response for getting stats"

/-- Modelled from the spec: `StatsManager.get_karma_changes_today` has an
empty body (`pass`) in the source; spec section 4.2 defines
`changes_today` as 0 when no record exists or the stored day differs from
today, and the stored counter otherwise. -/
def get_karma_changes_today (t : List StatsRow) (chat_id user_id : Int) (today : Int) : Int :=
  match statsRowsFor t chat_id user_id with
  | [] => 0
  | r :: _ => if r.today = today then r.today_karma_changes else 0

/-- Modelled from the spec: `StatsManager.reset_user_reset_last_karma_change`
is imported from `skarma.api.karma` and absent from the source files; spec
section 4.6 says the undo path clears the daily-change attribution for the
reversed action in the Activity Ledger. Rendered as decrementing the
actor's `today_karma_changes`. -/
def reset_user_reset_last_karma_change (t : List StatsRow) (chat_id user_id : Int) :
    List StatsRow :=
  t.map (fun r => if r.chat_id == chat_id && r.user_id == user_id then
    { r with today_karma_changes := r.today_karma_changes - 1 } else r)

/-- Modelled from the spec: `MessagesManager.is_user_changed_karma_on_message`
is imported from `skarma.api.karma` and absent from the source files; spec
section 4.3 defines `has_scored_message` as set membership of
(chat, actor, message). -/
def is_user_changed_karma_on_message (t : List (Int × Int × Int))
    (chat_id user_id message_id : Int) : Bool :=
  t.contains (chat_id, user_id, message_id)

/-- Modelled from the spec: `MessagesManager.mark_message_as_used` is
imported from `skarma.api.karma` and absent from the source files; spec
section 4.3 defines `mark_scored` as an idempotent set insert. -/
def mark_message_as_used (t : List (Int × Int × Int)) (chat_id user_id message_id : Int) :
    List (Int × Int × Int) :=
  if t.contains (chat_id, user_id, message_id) then t
  else t ++ [(chat_id, user_id, message_id)]

/-- Result of the text classifier `_parse_message`. -/
inductive ParserResult
  | NOTHING
  | RAISE
  | LOWER
deriving DecidableEq

/-- Lowercasing of a message, standing for Python `str.lower()`. -/
def toLowerStr (s : List Char) : List Char := s.map Char.toLower

/-- Source `_parse_message`: lowercases the message, then tries every configured
raise-phrase as a verbatim prefix, then every lower-phrase. The source
loop returns on the first matching phrase, which is `List.any` of the
prefix tests. The phrase lists are configuration data
(`karma_conf.json`), so they are parameters here. -/
def parse_message (raiseCommands lowerCommands : List (List Char)) (msg : List Char) :
    ParserResult :=
  let msg_lower := toLowerStr msg
  if raiseCommands.any (fun c => c.isPrefixOf msg_lower) then ParserResult.RAISE
  else if lowerCommands.any (fun c => c.isPrefixOf msg_lower) then ParserResult.LOWER
  else ParserResult.NOTHING

/-- Case-insensitive prefix test, as the spec words it ("case-insensitive
prefix match"): both the message and the phrase are lowercased. Used only
to compare the source classifier against the spec sentence. -/
def ciStartsWith (s p : List Char) : Bool :=
  (toLowerStr p).isPrefixOf (toLowerStr s)

/-- The classifier exactly as the spec words it: case-insensitive prefix
match against the raise list, then the lower list, first match wins. Used
only to compare with `parse_message`. -/
def spec_parse_message (raiseCommands lowerCommands : List (List Char)) (msg : List Char) :
    ParserResult :=
  if raiseCommands.any (fun c => ciStartsWith msg c) then ParserResult.RAISE
  else if lowerCommands.any (fun c => ciStartsWith msg c) then ParserResult.LOWER
  else ParserResult.NOTHING

/-- Source `KarmaManager.CHECK` verdicts. The enum itself is imported from
`skarma.api.karma`; the four verdict names are taken from the handler
branches and spec section 4.5. -/
inductive CHECK
  | OK
  | TIMEOUT
  | CHANGE_DENIED
  | DAY_MAX_EXCEED
deriving DecidableEq

/-- Configuration data of the core: the two phrase lists, the daily cap
and the per-action change unit. -/
structure Config where
  raiseCommands : List (List Char)
  lowerCommands : List (List Char)
  dailyCap : Int
  changeUnit : Int
deriving DecidableEq

/-- Modelled from the spec: `KarmaManager.check_could_user_change_karma` is
imported from `skarma.api.karma` and absent from the source files. The
self-target and bot-target denials are inline in the handler, so per spec
section 4.5 only step 3 remains here: deny with `DAY_MAX_EXCEED` when the
actor's `changes_today` has reached the daily cap, otherwise `OK`; the
returned change value is the configured unit. -/
def check_could_user_change_karma (cfg : Config) (stats : List StatsRow)
    (chat_id user_id : Int) (today : Int) ( _is_raise : Bool) : CHECK × Int :=
  if cfg.dailyCap ≤ get_karma_changes_today stats chat_id user_id today then
    (CHECK.DAY_MAX_EXCEED, cfg.changeUnit)
  else
    (CHECK.OK, cfg.changeUnit)

/-- The whole mutable state touched by the handlers: the four database
tables plus the two process-local dictionaries `last_actions` (per
(chat, actor): target, signed delta, timestamp) and `last_karma_minus`
(per (chat, target): list of (actor, timestamp)). -/
structure BotState where
  usernames : List (Int × String)
  karma : List KarmaRow
  stats : List StatsRow
  used_messages : List (Int × Int × Int)
  last_actions : List ((Int × Int) × (Int × Int × Int))
  last_karma_minus : List ((Int × Int) × List (Int × Int))
deriving DecidableEq

/-- Python dict assignment `m[k] = v` on an association list. -/
def dictStore {α β : Type} [BEq α] (m : List (α × β)) (k : α) (v : β) : List (α × β) :=
  if m.any (fun p => p.1 == k) then
    m.map (fun p => if p.1 == k then (p.1, v) else p)
  else
    m ++ [(k, v)]

/-- Python `defaultdict(list)` append `m[k].append(e)`. -/
def dictAppend {α β : Type} [BEq α] (m : List (α × List β)) (k : α) (e : β) :
    List (α × List β) :=
  if m.any (fun p => p.1 == k) then
    m.map (fun p => if p.1 == k then (p.1, p.2 ++ [e]) else p)
  else
    m ++ [(k, [e])]

/-- The revenge scan of `message_handler` (source lines 205-209): the key
membership test on `last_karma_minus` followed by the loop looking for an
entry whose actor is the current target within 120 seconds. -/
def revenge_hit (m : List ((Int × Int) × List (Int × Int)))
    (chat_id from_user_id user_id : Int) (now : DateTime) : Bool :=
  match List.lookup (chat_id, from_user_id) m with
  | none => false
  | some entries =>
    entries.any (fun e => e.1 == user_id && decide (now.seconds - e.2 ≤ 2 * 60))

/-- Observable steps of a handler run, for stating in which order the
guards are consulted and the stores mutated. -/
inductive Event
  | setUsername
  | admissionCheck
  | revengeCheck
  | duplicateCheck
  | markUsed
  | recordActivity
  | applyDelta
  | writeLastAction
  | recordNegative
deriving DecidableEq

/-- The user-facing outcome of a handler run, one constructor per
distinct reply message (or silence). -/
inductive Outcome
  | noAction
  | selfTarget
  | botTarget
  | timeout
  | changeDenied
  | dayMaxExceed
  | revengeBlocked
  | duplicateMessage
  | changed (new_karma : Int)
  | storageError
  | nothingToCancel
  | tooLate
  | cancelled (new_karma : Int)
deriving DecidableEq

/-- An incoming update, reduced to the fields `message_handler` reads:
whether it is a reply, the ids, the reply target's name and bot flag, and
the trigger text (already resolved from `text` or the attachment emoji). -/
structure MessageEvent where
  is_reply : Bool
  chat_id : Int
  from_user_id : Int
  user_id : Int
  user_name : String
  message_id : Int
  target_is_bot : Bool
  text : List Char
deriving DecidableEq

/-- Trace of a fully admitted RAISE run. -/
def traceAdmitRaise : List Event :=
  [Event.setUsername, Event.admissionCheck, Event.revengeCheck, Event.duplicateCheck,
   Event.markUsed, Event.recordActivity, Event.applyDelta, Event.writeLastAction]

/-- Trace of a fully admitted LOWER run. -/
def traceAdmitLower : List Event :=
  traceAdmitRaise ++ [Event.recordNegative]

/-- The part of `message_handler` guarded by an `OK` admission verdict
(source lines 204-231): the revenge scan, the duplicate-message guard, and
on passing both the mutation sequence mark-used, record-activity,
apply-delta, write-LastAction and, for LOWER, record-negative. `b` is the
source's `parse_msg == ParserResult.RAISE` test and `v` the change value
returned by the admission check. A `DatabaseError` raised mid-run is
rendered as `storageError` with the mutations already made kept, matching
`@catch_error`. -/
def ok_branch (s1 : BotState) (ev : MessageEvent) (now : DateTime) (b : Bool) (v : Int) :
    BotState × List Event × Outcome :=
  if revenge_hit s1.last_karma_minus ev.chat_id ev.from_user_id ev.user_id now then
    (s1, [Event.setUsername, Event.admissionCheck, Event.revengeCheck],
     Outcome.revengeBlocked)
  else if is_user_changed_karma_on_message s1.used_messages ev.chat_id ev.from_user_id
      ev.message_id then
    (s1, [Event.setUsername, Event.admissionCheck, Event.revengeCheck,
          Event.duplicateCheck], Outcome.duplicateMessage)
  else
    let used2 := mark_message_as_used s1.used_messages ev.chat_id ev.from_user_id
      ev.message_id
    let s2 : BotState := { s1 with used_messages := used2 }
    match handle_user_change_karma s2.stats ev.chat_id ev.from_user_id now with
    | Except.error _ =>
      (s2, [Event.setUsername, Event.admissionCheck, Event.revengeCheck,
            Event.duplicateCheck, Event.markUsed], Outcome.storageError)
    | Except.ok stats2 =>
      let s3 : BotState := { s2 with stats := stats2 }
      if b then
        let karma4 := increase_user_karma s3.karma ev.chat_id ev.user_id v
        let s4 : BotState := { s3 with karma := karma4 }
        let la5 := dictStore s4.last_actions (ev.chat_id, ev.from_user_id)
          (ev.user_id, v, now.seconds)
        let s5 : BotState := { s4 with last_actions := la5 }
        match get_user_karma s5.karma ev.chat_id ev.user_id with
        | Except.error _ => (s5, traceAdmitRaise, Outcome.storageError)
        | Except.ok k => (s5, traceAdmitRaise, Outcome.changed k)
      else
        let karma4 := decrease_user_karma s3.karma ev.chat_id ev.user_id v
        let s4 : BotState := { s3 with karma := karma4 }
        let la5 := dictStore s4.last_actions (ev.chat_id, ev.from_user_id)
          (ev.user_id, -v, now.seconds)
        let s5 : BotState := { s4 with last_actions := la5 }
        let lkm6 := dictAppend s5.last_karma_minus (ev.chat_id, ev.user_id)
          (ev.from_user_id, now.seconds)
        let s6 : BotState := { s5 with last_karma_minus := lkm6 }
        match get_user_karma s6.karma ev.chat_id ev.user_id with
        | Except.error _ => (s6, traceAdmitLower, Outcome.storageError)
        | Except.ok k => (s6, traceAdmitLower, Outcome.changed k)

/-- Source `message_handler` (lines 166-240): classify the text; upsert the
target's username; deny self-target and bot-target; consult
`check_could_user_change_karma`; on `OK` continue with `ok_branch`.
Returns the new state, the trace of steps performed, and the outcome. -/
def message_handler (cfg : Config) (s : BotState) (ev : MessageEvent) (now : DateTime) :
    BotState × List Event × Outcome :=
  if !ev.is_reply then (s, [], Outcome.noAction) else
  let parse_msg := parse_message cfg.raiseCommands cfg.lowerCommands ev.text
  if parse_msg = ParserResult.NOTHING then (s, [], Outcome.noAction) else
  let s1 : BotState := { s with usernames := set_username s.usernames ev.user_id ev.user_name }
  if ev.from_user_id = ev.user_id then
    (s1, [Event.setUsername, Event.admissionCheck], Outcome.selfTarget)
  else if ev.target_is_bot then
    (s1, [Event.setUsername, Event.admissionCheck], Outcome.botTarget)
  else
    let cc := check_could_user_change_karma cfg s1.stats ev.chat_id ev.from_user_id now.day
      (parse_msg = ParserResult.RAISE)
    match cc.1 with
    | CHECK.TIMEOUT =>
      (s1, [Event.setUsername, Event.admissionCheck], Outcome.timeout)
    | CHECK.CHANGE_DENIED =>
      (s1, [Event.setUsername, Event.admissionCheck], Outcome.changeDenied)
    | CHECK.DAY_MAX_EXCEED =>
      (s1, [Event.setUsername, Event.admissionCheck], Outcome.dayMaxExceed)
    | CHECK.OK =>
      ok_branch s1 ev now (parse_msg = ParserResult.RAISE) cc.2

/-- State after a handler run. -/
def handlerState (cfg : Config) (s : BotState) (ev : MessageEvent) (now : DateTime) :
    BotState :=
  (message_handler cfg s ev now).1

/-- Trace of a handler run. -/
def handlerTrace (cfg : Config) (s : BotState) (ev : MessageEvent) (now : DateTime) :
    List Event :=
  (message_handler cfg s ev now).2.1

/-- Outcome of a handler run. -/
def handlerOutcome (cfg : Config) (s : BotState) (ev : MessageEvent) (now : DateTime) :
    Outcome :=
  (message_handler cfg s ev now).2.2

/-- Source `cancel_command` (lines 267-291): looks up `last_actions` for
(chat, actor); replies "nothing to cancel" when absent; refuses after 120
seconds; otherwise resets the actor's daily-change attribution, applies
the opposite delta to the recorded target, and builds the confirmation
message from the username table and the new score. The source never
deletes the `last_actions` entry. -/
def cancel_command (s : BotState) (chat_id user_id : Int) (now : DateTime) :
    BotState × Outcome :=
  match List.lookup (chat_id, user_id) s.last_actions with
  | none => (s, Outcome.nothingToCancel)
  | some (user_change_id, change_value, ts) =>
    if 2 * 60 < now.seconds - ts then (s, Outcome.tooLate)
    else
      let stats1 := reset_user_reset_last_karma_change s.stats chat_id user_id
      let s1 : BotState := { s with stats := stats1 }
      let karma2 := change_user_karma s1.karma chat_id user_change_id (-change_value)
      let s2 : BotState := { s1 with karma := karma2 }
      match get_username_by_id s2.usernames user_change_id,
            get_user_karma s2.karma chat_id user_change_id with
      | Except.ok _, Except.ok k => (s2, Outcome.cancelled k)
      | _, _ => (s2, Outcome.storageError)

/-! ## Shared fixtures and helper lemmas -/

/-- Configuration with one raise-phrase, one lower-phrase, cap 10, unit 1. -/
def cfgUnit : Config := ⟨[['+']], [['-']], 10, 1⟩

/-- The all-empty state of a fresh chat. -/
def emptyState : BotState := ⟨[], [], [], [], [], []⟩

/-- Reply event: user 10 lowers user 20 on message 100 in chat 1. -/
def lowerEvent : MessageEvent := ⟨true, 1, 10, 20, "bob", 100, false, ['-']⟩

/-- Reply event: user 10 raises user 20 on message 100 in chat 1. -/
def raiseEvent : MessageEvent := ⟨true, 1, 10, 20, "bob", 100, false, ['+']⟩

/-- A concrete instant: second 1000 of day 5. -/
def nowT : DateTime := ⟨1000, 5⟩

/-- State in which user 20 lowered user 10 in chat 1 at second 940. -/
def revengeState : BotState := ⟨[], [], [], [], [], [((1, 10), [(20, 940)])]⟩

/-- State in which user 10 already scored message 100 in chat 1. -/
def markedState : BotState := ⟨[], [], [], [(1, 10, 100)], [], []⟩

/-- State in which user 10 already scored message 100 and user 20 lowered
user 10 at second 940. -/
def markedRevengeState : BotState := ⟨[], [], [], [(1, 10, 100)], [], [((1, 10), [(20, 940)])]⟩

/-- State holding a prior +5 action of user 10 on user 20 (chat 1, second
0) together with user 20's score 5 and username row. -/
def undoState : BotState :=
  ⟨[(20, "bob")], [⟨1, 20, 5⟩], [], [], [((1, 10), (20, 5, 0))], []⟩

theorem any_eq_of_forall_eq {α : Type} {l : List α} {f g : α → Bool}
    (h : ∀ x ∈ l, f x = g x) : l.any f = l.any g := by
  induction l with
  | nil => rfl
  | cons a l ih =>
    simp only [List.any_cons]
    rw [h a (by simp), ih (fun x hx => h x (by simp [hx]))]

theorem filter_key_map_guard {α : Type} (p : α → Bool) (g : α → α)
    (hg : ∀ r, p (g r) = p r) (t : List α) :
    (t.map (fun r => if p r then g r else r)).filter p = (t.filter p).map g := by
  induction t with
  | nil => rfl
  | cons a t ih =>
    by_cases ha : p a = true
    · simp [List.filter_cons, ha, hg, ih]
    · simp [List.filter_cons, ha, ih]

theorem filter_not_key_map_guard {α : Type} (p : α → Bool) (g : α → α)
    (hg : ∀ r, p (g r) = p r) (t : List α) :
    (t.map (fun r => if p r then g r else r)).filter (fun r => !p r) =
      t.filter (fun r => !p r) := by
  induction t with
  | nil => rfl
  | cons a t ih =>
    by_cases ha : p a = true <;> simp [List.filter_cons, ha, hg, ih]

/-! ## C6: score store, sum of deltas -/

/-- Iterated `change_user_karma` over a list of deltas, i.e. a sequence of
`apply_delta` calls on the same (chat, user) key. -/
def apply_deltas (t : List KarmaRow) (chat_id user_id : Int) (ds : List Int) : List KarmaRow :=
  ds.foldl (fun acc d => change_user_karma acc chat_id user_id d) t

theorem karmaRowsFor_change_of_empty {t : List KarmaRow} {c u : Int} (d : Int)
    (h : karmaRowsFor t c u = []) :
    karmaRowsFor (change_user_karma t c u d) c u = [⟨c, u, d⟩] := by
  unfold change_user_karma
  unfold karmaRowsFor at h ⊢
  rw [h]
  simp [List.filter_append, h]

theorem karmaRowsFor_change_of_one {t : List KarmaRow} {c u k : Int} (d : Int)
    (h : karmaRowsFor t c u = [⟨c, u, k⟩]) :
    karmaRowsFor (change_user_karma t c u d) c u = [⟨c, u, k + d⟩] := by
  unfold change_user_karma
  unfold karmaRowsFor at h ⊢
  rw [h]
  have hmap := filter_key_map_guard (fun r : KarmaRow => r.chat_id == c && r.user_id == u)
    (fun r => { r with karma := r.karma + d }) (fun r => rfl) t
  simp only [List.isEmpty_cons, Bool.false_eq_true, if_false]
  rw [hmap, h]
  simp

theorem karmaRowsFor_apply_deltas {c u : Int} (ds : List Int) :
    ∀ (t : List KarmaRow) (k : Int), karmaRowsFor t c u = [⟨c, u, k⟩] →
      karmaRowsFor (apply_deltas t c u ds) c u = [⟨c, u, k + ds.sum⟩] := by
  induction ds with
  | nil => intro t k h; simpa [apply_deltas] using h
  | cons d ds ih =>
    intro t k h
    have h1 := karmaRowsFor_change_of_one d h
    have h2 := ih (change_user_karma t c u d) (k + d) h1
    simpa [apply_deltas, add_assoc] using h2

/-- C6: on a fresh (chat, user) key, `get_user_karma` after any finite
sequence of `change_user_karma` calls returns the sum of the deltas, and
`get_user_karma` on the fresh key itself returns 0. -/
theorem get_karma_eq_sum_of_deltas (t : List KarmaRow) (c u : Int) (ds : List Int)
    (h : karmaRowsFor t c u = []) :
    get_user_karma (apply_deltas t c u ds) c u = Except.ok ds.sum ∧
    get_user_karma t c u = Except.ok 0 := by
  constructor
  · match ds with
    | [] =>
      unfold apply_deltas get_user_karma
      rw [List.foldl_nil, h]
      simp
    | d :: ds =>
      have h1 := karmaRowsFor_change_of_empty d h
      have h2 := karmaRowsFor_apply_deltas ds (change_user_karma t c u d) d h1
      unfold get_user_karma
      have h3 : apply_deltas t c u (d :: ds) = apply_deltas (change_user_karma t c u d) c u ds := by
        simp [apply_deltas]
      rw [h3, h2]
      simp
  · unfold get_user_karma
    rw [h]

/-- Witness for C6 at the spec's example: +3 then -1 then +2 on a fresh key
yields 4. -/
theorem get_karma_eq_sum_of_deltas_witness :
    karmaRowsFor [] 1 2 = [] ∧
    get_user_karma (apply_deltas [] 1 2 [3, -1, 2]) 1 2 = Except.ok 4 ∧
    get_user_karma ([] : List KarmaRow) 1 2 = Except.ok 0 := by
  refine ⟨by decide, ?_⟩
  have h := get_karma_eq_sum_of_deltas [] 1 2 [3, -1, 2] (by decide)
  exact ⟨by simpa using h.1, h.2⟩

/-! ## C5: activity ledger update -/

/-- C5: `handle_user_change_karma` on a table with at most one row for the
actor succeeds and leaves exactly one row for the actor, stamped with
`last_karma_change = now` and `day = date(now)`, whose counter is the old
counter plus one when the stored day is today, and 1 otherwise (including
the no-prior-row case); all other rows are untouched. -/
theorem stats_update_cases (t : List StatsRow) (c u : Int) (now : DateTime)
    (hwf : (statsRowsFor t c u).length ≤ 1) :
    ∃ t2, handle_user_change_karma t c u now = Except.ok t2 ∧
      statsRowsFor t2 c u =
        [⟨c, u, now.seconds, now.day,
          match statsRowsFor t c u with
          | [r] => if r.today = now.day then r.today_karma_changes + 1 else 1
          | _ => 1⟩] ∧
      t2.filter (fun r => !(r.chat_id == c && r.user_id == u)) =
        t.filter (fun r => !(r.chat_id == c && r.user_id == u)) := by
  cases h : statsRowsFor t c u with
  | nil =>
    refine ⟨t ++ [⟨c, u, now.seconds, now.day, 1⟩], ?_, ?_, ?_⟩
    · unfold handle_user_change_karma
      rw [h]
    · unfold statsRowsFor at h ⊢
      rw [List.filter_append, h]
      simp
    · rw [List.filter_append]
      simp
  | cons r rest =>
    cases rest with
    | cons r2 rest2 =>
      rw [h] at hwf
      simp at hwf
    | nil =>
      have hmem : r ∈ statsRowsFor t c u := by rw [h]; simp
      have hkey := (List.mem_filter.mp hmem).2
      have hc : r.chat_id = c := by
        have := (Bool.and_eq_true _ _ |>.mp hkey).1
        simpa [beq_iff_eq] using this
      have hu : r.user_id = u := by
        have := (Bool.and_eq_true _ _ |>.mp hkey).2
        simpa [beq_iff_eq] using this
      by_cases hd : r.today = now.day
      · refine ⟨t.map (fun x => if x.chat_id == c && x.user_id == u then
          { x with today_karma_changes := x.today_karma_changes + 1,
                   last_karma_change := now.seconds } else x), ?_, ?_, ?_⟩
        · unfold handle_user_change_karma
          rw [h]
          simp [hd]
        · unfold statsRowsFor at h ⊢
          rw [filter_key_map_guard (fun x : StatsRow => x.chat_id == c && x.user_id == u)
            (fun x => { x with today_karma_changes := x.today_karma_changes + 1,
                               last_karma_change := now.seconds }) (fun x => rfl) t, h]
          simp [hc, hu, hd]
        · rw [filter_not_key_map_guard (fun x : StatsRow => x.chat_id == c && x.user_id == u)
            (fun x => { x with today_karma_changes := x.today_karma_changes + 1,
                               last_karma_change := now.seconds }) (fun x => rfl) t]
      · refine ⟨t.map (fun x => if x.chat_id == c && x.user_id == u then
          { x with today := now.day, today_karma_changes := 1,
                   last_karma_change := now.seconds } else x), ?_, ?_, ?_⟩
        · unfold handle_user_change_karma
          rw [h]
          simp [hd]
        · unfold statsRowsFor at h ⊢
          rw [filter_key_map_guard (fun x : StatsRow => x.chat_id == c && x.user_id == u)
            (fun x => { x with today := now.day, today_karma_changes := 1,
                               last_karma_change := now.seconds }) (fun x => rfl) t, h]
          simp [hc, hu, hd]
        · rw [filter_not_key_map_guard (fun x : StatsRow => x.chat_id == c && x.user_id == u)
            (fun x => { x with today := now.day, today_karma_changes := 1,
                               last_karma_change := now.seconds }) (fun x => rfl) t]

/-- Witness for C5: a concrete run of each of the three cases. -/
theorem stats_update_cases_witness :
    (statsRowsFor [] 1 10).length ≤ 1 ∧
    (∃ t2, handle_user_change_karma [] 1 10 ⟨1000, 5⟩ = Except.ok t2 ∧
      statsRowsFor t2 1 10 = [⟨1, 10, 1000, 5, 1⟩] ∧
      t2.filter (fun r => !(r.chat_id == 1 && r.user_id == 10)) =
        ([] : List StatsRow).filter (fun r => !(r.chat_id == 1 && r.user_id == 10))) := by
  constructor
  · decide
  · have h := stats_update_cases [] 1 10 ⟨1000, 5⟩ (by decide)
    simpa using h

/-! ## C7: ranked top-N query -/

theorem top_mem_pos (t : List KarmaRow) (chat_id : Int) (n : Nat) :
    ∀ p ∈ get_ordered_karma_top t chat_id n true, 0 < p.2 := by
  intro p hp
  unfold get_ordered_karma_top at hp
  have h1 := List.mem_of_mem_take hp
  rw [List.mem_insertionSort, List.mem_dedup] at h1
  obtain ⟨r, hr, hpr⟩ := List.mem_map.mp h1
  have h2 := (List.mem_filter.mp hr).2
  cases hpr
  simp at h2
  exact h2.2

theorem top_mem_neg (t : List KarmaRow) (chat_id : Int) (n : Nat) :
    ∀ p ∈ get_ordered_karma_top t chat_id n false, p.2 < 0 := by
  intro p hp
  unfold get_ordered_karma_top at hp
  have h1 := List.mem_of_mem_take hp
  rw [List.mem_insertionSort, List.mem_dedup] at h1
  obtain ⟨r, hr, hpr⟩ := List.mem_map.mp h1
  have h2 := (List.mem_filter.mp hr).2
  cases hpr
  simp at h2
  exact h2.2

theorem top_sorted_desc (t : List KarmaRow) (chat_id : Int) (n : Nat) :
    (get_ordered_karma_top t chat_id n true).Pairwise
      (fun a b : Int × Int => b.2 ≤ a.2) := by
  unfold get_ordered_karma_top
  apply List.Pairwise.sublist (List.take_sublist _ _)
  haveI : IsTotal (Int × Int) (fun a b => b.2 ≤ a.2) := ⟨fun a b => le_total b.2 a.2⟩
  haveI : IsTrans (Int × Int) (fun a b => b.2 ≤ a.2) :=
    ⟨fun _ _ _ hab hbc => le_trans hbc hab⟩
  exact List.sorted_insertionSort _ _

theorem top_sorted_asc (t : List KarmaRow) (chat_id : Int) (n : Nat) :
    (get_ordered_karma_top t chat_id n false).Pairwise
      (fun a b : Int × Int => a.2 ≤ b.2) := by
  unfold get_ordered_karma_top
  apply List.Pairwise.sublist (List.take_sublist _ _)
  haveI : IsTotal (Int × Int) (fun a b : Int × Int => a.2 ≤ b.2) :=
    ⟨fun a b => le_total a.2 b.2⟩
  haveI : IsTrans (Int × Int) (fun a b : Int × Int => a.2 ≤ b.2) :=
    ⟨fun _ _ _ hab hbc => le_trans hab hbc⟩
  exact List.sorted_insertionSort _ _

theorem top_length_le (t : List KarmaRow) (chat_id : Int) (n : Nat) (biggest : Bool) :
    (get_ordered_karma_top t chat_id n biggest).length ≤ n := by
  unfold get_ordered_karma_top
  cases biggest <;> simp [List.length_take]

/-- C7: `get_ordered_karma_top` returns only strictly positive scores in
descending order for `biggest = true` and only strictly negative scores in
ascending order for `biggest = false`, never more than the requested
amount; being a function of the table, its tie order is deterministic. -/
theorem top_n_filter_order_length (t : List KarmaRow) (chat_id : Int) (n : Nat) :
    (∀ p ∈ get_ordered_karma_top t chat_id n true, 0 < p.2) ∧
    (get_ordered_karma_top t chat_id n true).Pairwise (fun a b : Int × Int => b.2 ≤ a.2) ∧
    (get_ordered_karma_top t chat_id n true).length ≤ n ∧
    (∀ p ∈ get_ordered_karma_top t chat_id n false, p.2 < 0) ∧
    (get_ordered_karma_top t chat_id n false).Pairwise (fun a b : Int × Int => a.2 ≤ b.2) ∧
    (get_ordered_karma_top t chat_id n false).length ≤ n :=
  ⟨top_mem_pos t chat_id n, top_sorted_desc t chat_id n, top_length_le t chat_id n true,
   top_mem_neg t chat_id n, top_sorted_asc t chat_id n, top_length_le t chat_id n false⟩

/-- Witness for C7 at a concrete five-row table. -/
theorem top_n_filter_order_length_witness :
    (∀ p ∈ get_ordered_karma_top
      [⟨1, 2, 3⟩, ⟨1, 3, -4⟩, ⟨1, 4, 7⟩, ⟨2, 5, 9⟩, ⟨1, 6, 3⟩] 1 5 true, 0 < p.2) ∧
    (get_ordered_karma_top
      [⟨1, 2, 3⟩, ⟨1, 3, -4⟩, ⟨1, 4, 7⟩, ⟨2, 5, 9⟩, ⟨1, 6, 3⟩] 1 5 true).length ≤ 5 :=
  ⟨(top_n_filter_order_length [⟨1, 2, 3⟩, ⟨1, 3, -4⟩, ⟨1, 4, 7⟩, ⟨2, 5, 9⟩, ⟨1, 6, 3⟩]
      1 5).1,
   (top_n_filter_order_length [⟨1, 2, 3⟩, ⟨1, 3, -4⟩, ⟨1, 4, 7⟩, ⟨2, 5, 9⟩, ⟨1, 6, 3⟩]
      1 5).2.2.1⟩

/-! ## C9: text classifier -/

/-- C9 counterexample: with configured raise-phrase "UP", the message "up"
does start with it case-insensitively, yet the source classifier returns
NOTHING, because only the message is lowercased and the phrase is compared
verbatim. -/
theorem parse_not_case_insensitive :
    ciStartsWith ['u', 'p'] ['U', 'P'] = true ∧
    spec_parse_message [['U', 'P']] [] ['u', 'p'] = ParserResult.RAISE ∧
    parse_message [['U', 'P']] [] ['u', 'p'] = ParserResult.NOTHING := by decide

/-- C9 (amended): the classifier lowercases the message only and compares
each phrase verbatim; when every configured phrase is lowercase this
coincides with full case-insensitive first-match classification, and any
raise-phrase match wins over the lower-phrase list. -/
theorem parse_eq_spec_of_lowercase (rc lc : List (List Char)) (msg : List Char)
    (hrc : ∀ p ∈ rc, toLowerStr p = p) (hlc : ∀ p ∈ lc, toLowerStr p = p) :
    parse_message rc lc msg = spec_parse_message rc lc msg ∧
    (rc.any (fun c => ciStartsWith msg c) = true →
      parse_message rc lc msg = ParserResult.RAISE) := by
  have hr : rc.any (fun c => c.isPrefixOf (toLowerStr msg)) =
      rc.any (fun c => ciStartsWith msg c) :=
    any_eq_of_forall_eq (fun p hp => by unfold ciStartsWith; rw [hrc p hp])
  have hl : lc.any (fun c => c.isPrefixOf (toLowerStr msg)) =
      lc.any (fun c => ciStartsWith msg c) :=
    any_eq_of_forall_eq (fun p hp => by unfold ciStartsWith; rw [hlc p hp])
  constructor
  · simp only [parse_message, spec_parse_message]
    rw [hr, hl]
  · intro h
    simp only [parse_message]
    rw [hr, h]
    simp

/-- Witness for C9 (amended) at lowercase phrase lists. -/
theorem parse_eq_spec_of_lowercase_witness :
    (∀ p ∈ [['+']], toLowerStr p = p) ∧
    parse_message [['+']] [['-']] ['+', 'x'] = spec_parse_message [['+']] [['-']] ['+', 'x'] := by
  refine ⟨by decide, ?_⟩
  exact (parse_eq_spec_of_lowercase [['+']] [['-']] ['+', 'x'] (by decide) (by decide)).1

/-! ## C2: undo is not invalidated -/

/-- C2 (code-bug evaluation): starting from a recorded +5 action of user 10
on user 20 at second 0 with score 5, the first cancel at second 30 restores
score 0 but leaves the `last_actions` entry in place, so a second cancel at
second 60 succeeds again and drives the score to -5 instead of failing with
"nothing to cancel"; the no-entry case does fail that way. -/
theorem cancel_twice_eval :
    (cancel_command undoState 1 10 ⟨30, 0⟩).2 = Outcome.cancelled 0 ∧
    List.lookup (1, 10) (cancel_command undoState 1 10 ⟨30, 0⟩).1.last_actions =
      some (20, 5, 0) ∧
    (cancel_command (cancel_command undoState 1 10 ⟨30, 0⟩).1 1 10 ⟨60, 0⟩).2 =
      Outcome.cancelled (-5) ∧
    (cancel_command (cancel_command undoState 1 10 ⟨30, 0⟩).1 1 10 ⟨60, 0⟩).1.karma =
      [⟨1, 20, -5⟩] ∧
    (cancel_command emptyState 1 10 ⟨30, 0⟩).2 = Outcome.nothingToCancel := by decide

/-! ## Handler case analysis -/

theorem check_ok_of_under_cap {cfg : Config} {st : List StatsRow} {c u d : Int} (b : Bool)
    (hcap : get_karma_changes_today st c u d < cfg.dailyCap) :
    check_could_user_change_karma cfg st c u d b = (CHECK.OK, cfg.changeUnit) := by
  unfold check_could_user_change_karma
  rw [if_neg (not_le.mpr hcap)]

theorem under_cap_of_check_ok {cfg : Config} {st : List StatsRow} {c u d : Int} {b : Bool}
    (h : (check_could_user_change_karma cfg st c u d b).1 = CHECK.OK) :
    get_karma_changes_today st c u d < cfg.dailyCap := by
  by_contra hc
  rw [not_lt] at hc
  unfold check_could_user_change_karma at h
  rw [if_pos hc] at h
  exact absurd h (by simp)

/-- Exhaustive case analysis of `ok_branch`: the revenge guard fires, or
the duplicate guard fires, or the mutation sequence runs with the trace
fixed by the direction; the username table is never touched here. -/
theorem ok_branch_shape (s1 : BotState) (ev : MessageEvent) (now : DateTime) (b : Bool)
    (v : Int) :
    (revenge_hit s1.last_karma_minus ev.chat_id ev.from_user_id ev.user_id now = true ∧
      ok_branch s1 ev now b v =
        (s1, [Event.setUsername, Event.admissionCheck, Event.revengeCheck],
         Outcome.revengeBlocked)) ∨
    (revenge_hit s1.last_karma_minus ev.chat_id ev.from_user_id ev.user_id now = false ∧
      is_user_changed_karma_on_message s1.used_messages ev.chat_id ev.from_user_id
        ev.message_id = true ∧
      ok_branch s1 ev now b v =
        (s1, [Event.setUsername, Event.admissionCheck, Event.revengeCheck,
              Event.duplicateCheck], Outcome.duplicateMessage)) ∨
    (revenge_hit s1.last_karma_minus ev.chat_id ev.from_user_id ev.user_id now = false ∧
      is_user_changed_karma_on_message s1.used_messages ev.chat_id ev.from_user_id
        ev.message_id = false ∧
      (ok_branch s1 ev now b v).1.usernames = s1.usernames ∧
      (((ok_branch s1 ev now b v).2.1 =
          [Event.setUsername, Event.admissionCheck, Event.revengeCheck,
           Event.duplicateCheck, Event.markUsed] ∧
        (ok_branch s1 ev now b v).2.2 = Outcome.storageError) ∨
       (b = true ∧ (ok_branch s1 ev now b v).2.1 = traceAdmitRaise ∧
        ((ok_branch s1 ev now b v).2.2 = Outcome.storageError ∨
         ∃ k, (ok_branch s1 ev now b v).2.2 = Outcome.changed k)) ∨
       (b = false ∧ (ok_branch s1 ev now b v).2.1 = traceAdmitLower ∧
        ((ok_branch s1 ev now b v).2.2 = Outcome.storageError ∨
         ∃ k, (ok_branch s1 ev now b v).2.2 = Outcome.changed k)))) := by
  cases hrev : revenge_hit s1.last_karma_minus ev.chat_id ev.from_user_id ev.user_id now with
  | true =>
    left
    exact ⟨rfl, by simp [ok_branch, hrev]⟩
  | false =>
    cases hm : is_user_changed_karma_on_message s1.used_messages ev.chat_id ev.from_user_id
        ev.message_id with
    | true =>
      right; left
      exact ⟨rfl, rfl, by simp [ok_branch, hrev, hm]⟩
    | false =>
      right; right
      refine ⟨rfl, rfl, ?_⟩
      suffices h : ∀ r, ok_branch s1 ev now b v = r →
          r.1.usernames = s1.usernames ∧
          ((r.2.1 = [Event.setUsername, Event.admissionCheck, Event.revengeCheck,
              Event.duplicateCheck, Event.markUsed] ∧ r.2.2 = Outcome.storageError) ∨
           (b = true ∧ r.2.1 = traceAdmitRaise ∧
            (r.2.2 = Outcome.storageError ∨ ∃ k, r.2.2 = Outcome.changed k)) ∨
           (b = false ∧ r.2.1 = traceAdmitLower ∧
            (r.2.2 = Outcome.storageError ∨ ∃ k, r.2.2 = Outcome.changed k))) by
        exact h _ rfl
      intro r hE
      unfold ok_branch at hE
      rw [hrev, hm] at hE
      simp only [Bool.false_eq_true, if_false, ite_false] at hE
      repeat' split at hE
      all_goals subst hE
      all_goals simp_all [traceAdmitRaise, traceAdmitLower]

/-- Exhaustive case analysis of `message_handler`, in terms of the three
observables: silent exit, the five admission denials, the revenge denial,
the duplicate denial, and the admitted mutation run. -/
theorem handler_shape (cfg : Config) (s : BotState) (ev : MessageEvent) (now : DateTime) :
    ((ev.is_reply = false ∨
        parse_message cfg.raiseCommands cfg.lowerCommands ev.text = ParserResult.NOTHING) ∧
      handlerState cfg s ev now = s ∧ handlerTrace cfg s ev now = [] ∧
      handlerOutcome cfg s ev now = Outcome.noAction) ∨
    (ev.is_reply = true ∧
      parse_message cfg.raiseCommands cfg.lowerCommands ev.text ≠ ParserResult.NOTHING ∧
      ev.from_user_id = ev.user_id ∧
      handlerState cfg s ev now =
        { s with usernames := set_username s.usernames ev.user_id ev.user_name } ∧
      handlerTrace cfg s ev now = [Event.setUsername, Event.admissionCheck] ∧
      handlerOutcome cfg s ev now = Outcome.selfTarget) ∨
    (ev.is_reply = true ∧
      parse_message cfg.raiseCommands cfg.lowerCommands ev.text ≠ ParserResult.NOTHING ∧
      ev.from_user_id ≠ ev.user_id ∧ ev.target_is_bot = true ∧
      handlerState cfg s ev now =
        { s with usernames := set_username s.usernames ev.user_id ev.user_name } ∧
      handlerTrace cfg s ev now = [Event.setUsername, Event.admissionCheck] ∧
      handlerOutcome cfg s ev now = Outcome.botTarget) ∨
    (ev.is_reply = true ∧
      parse_message cfg.raiseCommands cfg.lowerCommands ev.text ≠ ParserResult.NOTHING ∧
      ev.from_user_id ≠ ev.user_id ∧ ev.target_is_bot = false ∧
      (check_could_user_change_karma cfg s.stats ev.chat_id ev.from_user_id now.day
        (decide (parse_message cfg.raiseCommands cfg.lowerCommands ev.text =
          ParserResult.RAISE))).1 = CHECK.TIMEOUT ∧
      handlerState cfg s ev now =
        { s with usernames := set_username s.usernames ev.user_id ev.user_name } ∧
      handlerTrace cfg s ev now = [Event.setUsername, Event.admissionCheck] ∧
      handlerOutcome cfg s ev now = Outcome.timeout) ∨
    (ev.is_reply = true ∧
      parse_message cfg.raiseCommands cfg.lowerCommands ev.text ≠ ParserResult.NOTHING ∧
      ev.from_user_id ≠ ev.user_id ∧ ev.target_is_bot = false ∧
      (check_could_user_change_karma cfg s.stats ev.chat_id ev.from_user_id now.day
        (decide (parse_message cfg.raiseCommands cfg.lowerCommands ev.text =
          ParserResult.RAISE))).1 = CHECK.CHANGE_DENIED ∧
      handlerState cfg s ev now =
        { s with usernames := set_username s.usernames ev.user_id ev.user_name } ∧
      handlerTrace cfg s ev now = [Event.setUsername, Event.admissionCheck] ∧
      handlerOutcome cfg s ev now = Outcome.changeDenied) ∨
    (ev.is_reply = true ∧
      parse_message cfg.raiseCommands cfg.lowerCommands ev.text ≠ ParserResult.NOTHING ∧
      ev.from_user_id ≠ ev.user_id ∧ ev.target_is_bot = false ∧
      (check_could_user_change_karma cfg s.stats ev.chat_id ev.from_user_id now.day
        (decide (parse_message cfg.raiseCommands cfg.lowerCommands ev.text =
          ParserResult.RAISE))).1 = CHECK.DAY_MAX_EXCEED ∧
      handlerState cfg s ev now =
        { s with usernames := set_username s.usernames ev.user_id ev.user_name } ∧
      handlerTrace cfg s ev now = [Event.setUsername, Event.admissionCheck] ∧
      handlerOutcome cfg s ev now = Outcome.dayMaxExceed) ∨
    (ev.is_reply = true ∧
      parse_message cfg.raiseCommands cfg.lowerCommands ev.text ≠ ParserResult.NOTHING ∧
      ev.from_user_id ≠ ev.user_id ∧ ev.target_is_bot = false ∧
      (check_could_user_change_karma cfg s.stats ev.chat_id ev.from_user_id now.day
        (decide (parse_message cfg.raiseCommands cfg.lowerCommands ev.text =
          ParserResult.RAISE))).1 = CHECK.OK ∧
      revenge_hit s.last_karma_minus ev.chat_id ev.from_user_id ev.user_id now = true ∧
      handlerState cfg s ev now =
        { s with usernames := set_username s.usernames ev.user_id ev.user_name } ∧
      handlerTrace cfg s ev now =
        [Event.setUsername, Event.admissionCheck, Event.revengeCheck] ∧
      handlerOutcome cfg s ev now = Outcome.revengeBlocked) ∨
    (ev.is_reply = true ∧
      parse_message cfg.raiseCommands cfg.lowerCommands ev.text ≠ ParserResult.NOTHING ∧
      ev.from_user_id ≠ ev.user_id ∧ ev.target_is_bot = false ∧
      (check_could_user_change_karma cfg s.stats ev.chat_id ev.from_user_id now.day
        (decide (parse_message cfg.raiseCommands cfg.lowerCommands ev.text =
          ParserResult.RAISE))).1 = CHECK.OK ∧
      revenge_hit s.last_karma_minus ev.chat_id ev.from_user_id ev.user_id now = false ∧
      is_user_changed_karma_on_message s.used_messages ev.chat_id ev.from_user_id
        ev.message_id = true ∧
      handlerState cfg s ev now =
        { s with usernames := set_username s.usernames ev.user_id ev.user_name } ∧
      handlerTrace cfg s ev now =
        [Event.setUsername, Event.admissionCheck, Event.revengeCheck,
         Event.duplicateCheck] ∧
      handlerOutcome cfg s ev now = Outcome.duplicateMessage) ∨
    (ev.is_reply = true ∧
      parse_message cfg.raiseCommands cfg.lowerCommands ev.text ≠ ParserResult.NOTHING ∧
      ev.from_user_id ≠ ev.user_id ∧ ev.target_is_bot = false ∧
      (check_could_user_change_karma cfg s.stats ev.chat_id ev.from_user_id now.day
        (decide (parse_message cfg.raiseCommands cfg.lowerCommands ev.text =
          ParserResult.RAISE))).1 = CHECK.OK ∧
      revenge_hit s.last_karma_minus ev.chat_id ev.from_user_id ev.user_id now = false ∧
      is_user_changed_karma_on_message s.used_messages ev.chat_id ev.from_user_id
        ev.message_id = false ∧
      (handlerState cfg s ev now).usernames =
        set_username s.usernames ev.user_id ev.user_name ∧
      ((handlerTrace cfg s ev now =
          [Event.setUsername, Event.admissionCheck, Event.revengeCheck,
           Event.duplicateCheck, Event.markUsed] ∧
        handlerOutcome cfg s ev now = Outcome.storageError) ∨
       (parse_message cfg.raiseCommands cfg.lowerCommands ev.text = ParserResult.RAISE ∧
        handlerTrace cfg s ev now = traceAdmitRaise ∧
        (handlerOutcome cfg s ev now = Outcome.storageError ∨
         ∃ k, handlerOutcome cfg s ev now = Outcome.changed k)) ∨
       (parse_message cfg.raiseCommands cfg.lowerCommands ev.text ≠ ParserResult.RAISE ∧
        handlerTrace cfg s ev now = traceAdmitLower ∧
        (handlerOutcome cfg s ev now = Outcome.storageError ∨
         ∃ k, handlerOutcome cfg s ev now = Outcome.changed k)))) := by
  by_cases h1 : ev.is_reply = true
  case neg =>
    have hb : ev.is_reply = false := by simpa [Bool.not_eq_true] using h1
    left
    refine ⟨Or.inl hb, ?_, ?_, ?_⟩ <;>
      simp [handlerState, handlerTrace, handlerOutcome, message_handler, hb]
  by_cases h2 : parse_message cfg.raiseCommands cfg.lowerCommands ev.text = ParserResult.NOTHING
  · left
    refine ⟨Or.inr h2, ?_, ?_, ?_⟩ <;>
      simp [handlerState, handlerTrace, handlerOutcome, message_handler, h1, h2]
  by_cases h3 : ev.from_user_id = ev.user_id
  · right; left
    refine ⟨h1, h2, h3, ?_, ?_, ?_⟩ <;>
      simp [handlerState, handlerTrace, handlerOutcome, message_handler, h1, h2, h3]
  by_cases h4 : ev.target_is_bot = true
  · right; right; left
    refine ⟨h1, h2, h3, h4, ?_, ?_, ?_⟩ <;>
      simp [handlerState, handlerTrace, handlerOutcome, message_handler, h1, h2, h3, h4]
  have hb4 : ev.target_is_bot = false := by simpa [Bool.not_eq_true] using h4
  cases h5 : (check_could_user_change_karma cfg s.stats ev.chat_id ev.from_user_id now.day
      (decide (parse_message cfg.raiseCommands cfg.lowerCommands ev.text =
        ParserResult.RAISE))).1 with
  | TIMEOUT =>
    right; right; right; left
    refine ⟨h1, h2, h3, hb4, rfl, ?_, ?_, ?_⟩ <;>
      simp [handlerState, handlerTrace, handlerOutcome, message_handler,
        h1, h2, h3, hb4, h5]
  | CHANGE_DENIED =>
    right; right; right; right; left
    refine ⟨h1, h2, h3, hb4, rfl, ?_, ?_, ?_⟩ <;>
      simp [handlerState, handlerTrace, handlerOutcome, message_handler,
        h1, h2, h3, hb4, h5]
  | DAY_MAX_EXCEED =>
    right; right; right; right; right; left
    refine ⟨h1, h2, h3, hb4, rfl, ?_, ?_, ?_⟩ <;>
      simp [handlerState, handlerTrace, handlerOutcome, message_handler,
        h1, h2, h3, hb4, h5]
  | OK =>
    have hE : message_handler cfg s ev now =
        ok_branch { s with usernames := set_username s.usernames ev.user_id ev.user_name }
          ev now
          (decide (parse_message cfg.raiseCommands cfg.lowerCommands ev.text =
            ParserResult.RAISE))
          (check_could_user_change_karma cfg s.stats ev.chat_id ev.from_user_id now.day
            (decide (parse_message cfg.raiseCommands cfg.lowerCommands ev.text =
              ParserResult.RAISE))).2 := by
      simp [message_handler, h1, h2, h3, hb4, h5]
    rcases ok_branch_shape
        { s with usernames := set_username s.usernames ev.user_id ev.user_name } ev now
        (decide (parse_message cfg.raiseCommands cfg.lowerCommands ev.text =
          ParserResult.RAISE))
        ((check_could_user_change_karma cfg s.stats ev.chat_id ev.from_user_id now.day
          (decide (parse_message cfg.raiseCommands cfg.lowerCommands ev.text =
            ParserResult.RAISE))).2) with
      ⟨hhit, hB⟩ | ⟨hhit, hm, hB⟩ | ⟨hhit, hm, hu, hB⟩
    · right; right; right; right; right; right; left
      refine ⟨h1, h2, h3, hb4, rfl, hhit, ?_, ?_, ?_⟩ <;>
        simp [handlerState, handlerTrace, handlerOutcome, hE, hB]
    · right; right; right; right; right; right; right; left
      refine ⟨h1, h2, h3, hb4, rfl, hhit, hm, ?_, ?_, ?_⟩ <;>
        simp [handlerState, handlerTrace, handlerOutcome, hE, hB]
    · right; right; right; right; right; right; right; right
      refine ⟨h1, h2, h3, hb4, rfl, hhit, hm, ?_, ?_⟩
      · simp only [handlerState]
        rw [hE]
        exact hu
      · rcases hB with ⟨hTr, hOut⟩ | ⟨hb, hTr, hOut⟩ | ⟨hb, hTr, hOut⟩
        · left
          constructor
          · simp only [handlerTrace]
            rw [hE]
            exact hTr
          · simp only [handlerOutcome]
            rw [hE]
            exact hOut
        · right; left
          refine ⟨by simpa using hb, ?_, ?_⟩
          · simp only [handlerTrace]
            rw [hE]
            exact hTr
          · rcases hOut with hOut | ⟨k, hOut⟩
            · exact Or.inl (by simp only [handlerOutcome]; rw [hE]; exact hOut)
            · exact Or.inr ⟨k, by simp only [handlerOutcome]; rw [hE]; exact hOut⟩
        · right; right
          refine ⟨by simpa using hb, ?_, ?_⟩
          · simp only [handlerTrace]
            rw [hE]
            exact hTr
          · rcases hOut with hOut | ⟨k, hOut⟩
            · exact Or.inl (by simp only [handlerOutcome]; rw [hE]; exact hOut)
            · exact Or.inr ⟨k, by simp only [handlerOutcome]; rw [hE]; exact hOut⟩

/-! ## C1: order of checks and mutations -/

/-- The step order asserted by the spec for a LOWER action: revenge,
duplicate, admission, then apply delta, record activity, mark used, record
negative, write LastAction. Used only to compare with the source order. -/
def claimedOrderLower : List Event :=
  [Event.revengeCheck, Event.duplicateCheck, Event.admissionCheck, Event.applyDelta,
   Event.recordActivity, Event.markUsed, Event.recordNegative, Event.writeLastAction]

/-- C1 counterexample: on a fully admitted LOWER action the handler runs
admission first, then revenge, then duplicate, and then mutates as
mark-used, record-activity, apply-delta, write-LastAction,
record-negative — not the claimed order. -/
theorem handler_order_counterexample :
    handlerOutcome cfgUnit emptyState lowerEvent nowT = Outcome.changed (-1) ∧
    (handlerTrace cfgUnit emptyState lowerEvent nowT).filter
      (fun e => !(e == Event.setUsername)) =
      [Event.admissionCheck, Event.revengeCheck, Event.duplicateCheck, Event.markUsed,
       Event.recordActivity, Event.applyDelta, Event.writeLastAction,
       Event.recordNegative] ∧
    ([Event.admissionCheck, Event.revengeCheck, Event.duplicateCheck, Event.markUsed,
      Event.recordActivity, Event.applyDelta, Event.writeLastAction,
      Event.recordNegative] ≠ claimedOrderLower) := by decide

/-- C1 (amended): every handler run consults the guards in the order
admission (self, bot, daily cap), revenge, duplicate, and an admitted run
then mutates in the order mark-used, record-activity, apply-delta,
write-LastAction and, only for LOWER, record-negative; mutation steps
appear only in runs that passed every guard. -/
theorem handler_step_order (cfg : Config) (s : BotState) (ev : MessageEvent) (now : DateTime) :
    (handlerTrace cfg s ev now = [] ∨
     handlerTrace cfg s ev now = [Event.setUsername, Event.admissionCheck] ∨
     handlerTrace cfg s ev now =
       [Event.setUsername, Event.admissionCheck, Event.revengeCheck] ∨
     handlerTrace cfg s ev now =
       [Event.setUsername, Event.admissionCheck, Event.revengeCheck,
        Event.duplicateCheck] ∨
     handlerTrace cfg s ev now =
       [Event.setUsername, Event.admissionCheck, Event.revengeCheck, Event.duplicateCheck,
        Event.markUsed] ∨
     handlerTrace cfg s ev now = traceAdmitRaise ∨
     handlerTrace cfg s ev now = traceAdmitLower) ∧
    (∀ k, handlerOutcome cfg s ev now = Outcome.changed k →
      handlerTrace cfg s ev now = traceAdmitRaise ∨
      handlerTrace cfg s ev now = traceAdmitLower) := by
  rcases handler_shape cfg s ev now with
      ⟨-, -, hT, hO⟩ | ⟨-, -, -, -, hT, hO⟩ | ⟨-, -, -, -, -, hT, hO⟩ |
      ⟨-, -, -, -, -, -, hT, hO⟩ | ⟨-, -, -, -, -, -, hT, hO⟩ |
      ⟨-, -, -, -, -, -, hT, hO⟩ | ⟨-, -, -, -, -, -, -, hT, hO⟩ |
      ⟨-, -, -, -, -, -, -, -, hT, hO⟩ |
      ⟨-, -, -, -, -, -, -, -, hB⟩
  · simp [hT, hO]
  · simp [hT, hO]
  · simp [hT, hO]
  · simp [hT, hO]
  · simp [hT, hO]
  · simp [hT, hO]
  · simp [hT, hO]
  · simp [hT, hO]
  · rcases hB with ⟨hT, hO⟩ | ⟨-, hT, hO⟩ | ⟨-, hT, hO⟩
    · simp [hT, hO]
    · rcases hO with hO | ⟨k, hO⟩ <;> simp [hT, hO]
    · rcases hO with hO | ⟨k, hO⟩ <;> simp [hT, hO]

/-- Witness for C1 (amended) at a concrete admitted RAISE run. -/
theorem handler_step_order_witness :
    (handlerTrace cfgUnit emptyState raiseEvent nowT = [] ∨
     handlerTrace cfgUnit emptyState raiseEvent nowT =
       [Event.setUsername, Event.admissionCheck] ∨
     handlerTrace cfgUnit emptyState raiseEvent nowT =
       [Event.setUsername, Event.admissionCheck, Event.revengeCheck] ∨
     handlerTrace cfgUnit emptyState raiseEvent nowT =
       [Event.setUsername, Event.admissionCheck, Event.revengeCheck,
        Event.duplicateCheck] ∨
     handlerTrace cfgUnit emptyState raiseEvent nowT =
       [Event.setUsername, Event.admissionCheck, Event.revengeCheck, Event.duplicateCheck,
        Event.markUsed] ∨
     handlerTrace cfgUnit emptyState raiseEvent nowT = traceAdmitRaise ∨
     handlerTrace cfgUnit emptyState raiseEvent nowT = traceAdmitLower) ∧
    (∀ k, handlerOutcome cfgUnit emptyState raiseEvent nowT = Outcome.changed k →
      handlerTrace cfgUnit emptyState raiseEvent nowT = traceAdmitRaise ∨
      handlerTrace cfgUnit emptyState raiseEvent nowT = traceAdmitLower) :=
  handler_step_order cfgUnit emptyState raiseEvent nowT

/-! ## C3: revenge window boundary -/

theorem revenge_hit_single {m : List ((Int × Int) × List (Int × Int))}
    {chat fromU target t0 : Int} (now : DateTime)
    (hrec : List.lookup (chat, fromU) m = some [(target, t0)]) :
    revenge_hit m chat fromU target now = decide (now.seconds - t0 ≤ 2 * 60) := by
  unfold revenge_hit
  rw [hrec]
  simp

/-- C3: with a single recorded lowering of actor B by user A at `t0`, B's
otherwise-admissible LOWER attempt against A is denied by the revenge
guard exactly when `now - t0 ≤ 120` seconds, and a denied attempt leaves
the score table unchanged. -/
theorem revenge_window_iff (cfg : Config) (s : BotState) (ev : MessageEvent)
    (now : DateTime) (t0 : Int)
    (hreply : ev.is_reply = true)
    (hlower : parse_message cfg.raiseCommands cfg.lowerCommands ev.text = ParserResult.LOWER)
    (hself : ev.from_user_id ≠ ev.user_id)
    (hbot : ev.target_is_bot = false)
    (hcap : get_karma_changes_today s.stats ev.chat_id ev.from_user_id now.day < cfg.dailyCap)
    (hrec : List.lookup (ev.chat_id, ev.from_user_id) s.last_karma_minus =
      some [(ev.user_id, t0)]) :
    (handlerOutcome cfg s ev now = Outcome.revengeBlocked ↔
      now.seconds - t0 ≤ 2 * 60) ∧
    (handlerOutcome cfg s ev now = Outcome.revengeBlocked →
      (handlerState cfg s ev now).karma = s.karma) := by
  have hOK := check_ok_of_under_cap
    (decide (parse_message cfg.raiseCommands cfg.lowerCommands ev.text =
      ParserResult.RAISE)) hcap
  have hhs := revenge_hit_single now hrec
  rcases handler_shape cfg s ev now with
      ⟨h0, -, -, -⟩ | ⟨-, -, h3, -, -, -⟩ | ⟨-, -, -, h4, -, -, -⟩ |
      ⟨-, -, -, -, h5, -, -, -⟩ | ⟨-, -, -, -, h5, -, -, -⟩ |
      ⟨-, -, -, -, h5, -, -, -⟩ | ⟨-, -, -, -, -, hhit, hS, -, hO⟩ |
      ⟨-, -, -, -, -, hhit, -, -, -, hO⟩ |
      ⟨-, -, -, -, -, hhit, -, -, hB⟩
  · rcases h0 with h | h
    · rw [hreply] at h
      exact absurd h (by simp)
    · rw [hlower] at h
      exact absurd h (by simp)
  · exact absurd h3 hself
  · rw [hbot] at h4
    exact absurd h4 (by simp)
  · rw [hOK] at h5
    exact absurd h5 (by simp)
  · rw [hOK] at h5
    exact absurd h5 (by simp)
  · rw [hOK] at h5
    exact absurd h5 (by simp)
  · have hwin : now.seconds - t0 ≤ 2 * 60 := by
      rw [hhs] at hhit
      exact of_decide_eq_true hhit
    refine ⟨⟨fun _ => hwin, fun _ => hO⟩, fun _ => ?_⟩
    rw [hS]
  · have hwin : ¬ now.seconds - t0 ≤ 2 * 60 := by
      rw [hhs] at hhit
      exact of_decide_eq_false hhit
    refine ⟨⟨fun ho => ?_, fun hw => absurd hw hwin⟩, fun ho => ?_⟩ <;>
      (rw [hO] at ho; exact absurd ho (by simp))
  · have hwin : ¬ now.seconds - t0 ≤ 2 * 60 := by
      rw [hhs] at hhit
      exact of_decide_eq_false hhit
    have hno : ¬ handlerOutcome cfg s ev now = Outcome.revengeBlocked := by
      rcases hB with ⟨-, hO⟩ | ⟨-, -, hO | ⟨k, hO⟩⟩ | ⟨-, -, hO | ⟨k, hO⟩⟩ <;>
        (rw [hO]; simp)
    exact ⟨⟨fun ho => absurd ho hno, fun hw => absurd hw hwin⟩,
           fun ho => absurd ho hno⟩

/-- Witness for C3 at a 60-second-old negative action. -/
theorem revenge_window_iff_witness :
    (handlerOutcome cfgUnit revengeState lowerEvent nowT = Outcome.revengeBlocked ↔
      nowT.seconds - 940 ≤ 2 * 60) ∧
    (handlerOutcome cfgUnit revengeState lowerEvent nowT = Outcome.revengeBlocked →
      (handlerState cfgUnit revengeState lowerEvent nowT).karma = revengeState.karma) :=
  revenge_window_iff cfgUnit revengeState lowerEvent nowT 940 rfl (by decide)
    (by decide) rfl (by decide) (by decide)

/-! ## C4: the revenge guard also blocks raising -/

/-- C4 counterexample: user 20 lowered user 10 sixty seconds ago; user
10's RAISE of user 20 is nonetheless blocked by the revenge guard. -/
theorem revenge_blocks_raise_counterexample :
    parse_message cfgUnit.raiseCommands cfgUnit.lowerCommands raiseEvent.text =
      ParserResult.RAISE ∧
    List.lookup (1, 10) revengeState.last_karma_minus = some [(20, 940)] ∧
    nowT.seconds - 940 ≤ 2 * 60 ∧
    handlerOutcome cfgUnit revengeState raiseEvent nowT = Outcome.revengeBlocked := by
  decide

/-- C4 (amended): the revenge guard runs before the direction branch, so
within the window it blocks the RAISE direction as well, leaving the score
table unchanged. -/
theorem revenge_blocks_raise (cfg : Config) (s : BotState) (ev : MessageEvent)
    (now : DateTime) (t0 : Int)
    (hreply : ev.is_reply = true)
    (hraise : parse_message cfg.raiseCommands cfg.lowerCommands ev.text = ParserResult.RAISE)
    (hself : ev.from_user_id ≠ ev.user_id)
    (hbot : ev.target_is_bot = false)
    (hcap : get_karma_changes_today s.stats ev.chat_id ev.from_user_id now.day < cfg.dailyCap)
    (hrec : List.lookup (ev.chat_id, ev.from_user_id) s.last_karma_minus =
      some [(ev.user_id, t0)])
    (hwin : now.seconds - t0 ≤ 2 * 60) :
    handlerOutcome cfg s ev now = Outcome.revengeBlocked ∧
    (handlerState cfg s ev now).karma = s.karma := by
  have hOK := check_ok_of_under_cap
    (decide (parse_message cfg.raiseCommands cfg.lowerCommands ev.text =
      ParserResult.RAISE)) hcap
  have hhit : revenge_hit s.last_karma_minus ev.chat_id ev.from_user_id ev.user_id now =
      true := by
    rw [revenge_hit_single now hrec]
    exact decide_eq_true hwin
  rcases handler_shape cfg s ev now with
      ⟨h0, -, -, -⟩ | ⟨-, -, h3, -, -, -⟩ | ⟨-, -, -, h4, -, -, -⟩ |
      ⟨-, -, -, -, h5, -, -, -⟩ | ⟨-, -, -, -, h5, -, -, -⟩ |
      ⟨-, -, -, -, h5, -, -, -⟩ | ⟨-, -, -, -, -, -, hS, -, hO⟩ |
      ⟨-, -, -, -, -, hmiss, -, -, -, -⟩ |
      ⟨-, -, -, -, -, hmiss, -, -, -⟩
  · rcases h0 with h | h
    · rw [hreply] at h
      exact absurd h (by simp)
    · rw [hraise] at h
      exact absurd h (by simp)
  · exact absurd h3 hself
  · rw [hbot] at h4
    exact absurd h4 (by simp)
  · rw [hOK] at h5
    exact absurd h5 (by simp)
  · rw [hOK] at h5
    exact absurd h5 (by simp)
  · rw [hOK] at h5
    exact absurd h5 (by simp)
  · exact ⟨hO, by rw [hS]⟩
  · rw [hhit] at hmiss
    exact absurd hmiss (by simp)
  · rw [hhit] at hmiss
    exact absurd hmiss (by simp)

/-- Witness for C4 (amended) at a 60-second-old negative action. -/
theorem revenge_blocks_raise_witness :
    handlerOutcome cfgUnit revengeState raiseEvent nowT = Outcome.revengeBlocked ∧
    (handlerState cfgUnit revengeState raiseEvent nowT).karma = revengeState.karma :=
  revenge_blocks_raise cfgUnit revengeState raiseEvent nowT 940 rfl (by decide)
    (by decide) rfl (by decide) (by decide) (by decide)

/-! ## C8: already-scored messages -/

/-- C8 counterexample: user 10 has already scored message 100, but a later
LOWER attempt on it falls to the revenge guard first, so the denial is not
the duplicate denial. -/
theorem duplicate_denial_counterexample :
    is_user_changed_karma_on_message markedRevengeState.used_messages 1 10 100 = true ∧
    handlerOutcome cfgUnit markedRevengeState lowerEvent nowT = Outcome.revengeBlocked ∧
    Outcome.revengeBlocked ≠ Outcome.duplicateMessage := by
  decide

/-- C8 (amended): once the actor has scored a message, every later raise or
lower attempt on it leaves the scores, activity ledger, used-message marks,
LastAction and negative-action records unchanged, and the denial is the
duplicate denial exactly when the attempt is a classified reply with a
non-self, non-bot target under the daily cap and the revenge guard does
not fire — otherwise one of the earlier denials is reported. -/
theorem marked_message_frame (cfg : Config) (s : BotState) (ev : MessageEvent)
    (now : DateTime)
    (hmarked : is_user_changed_karma_on_message s.used_messages ev.chat_id ev.from_user_id
      ev.message_id = true) :
    ((handlerState cfg s ev now).karma = s.karma ∧
     (handlerState cfg s ev now).stats = s.stats ∧
     (handlerState cfg s ev now).used_messages = s.used_messages ∧
     (handlerState cfg s ev now).last_actions = s.last_actions ∧
     (handlerState cfg s ev now).last_karma_minus = s.last_karma_minus) ∧
    (handlerOutcome cfg s ev now = Outcome.duplicateMessage ↔
      (ev.is_reply = true ∧
       parse_message cfg.raiseCommands cfg.lowerCommands ev.text ≠ ParserResult.NOTHING ∧
       ev.from_user_id ≠ ev.user_id ∧
       ev.target_is_bot = false ∧
       get_karma_changes_today s.stats ev.chat_id ev.from_user_id now.day < cfg.dailyCap ∧
       revenge_hit s.last_karma_minus ev.chat_id ev.from_user_id ev.user_id now =
         false)) := by
  rcases handler_shape cfg s ev now with
      ⟨h0, hS, -, hO⟩ | ⟨-, -, h3, hS, -, hO⟩ | ⟨-, -, -, h4, hS, -, hO⟩ |
      ⟨-, -, -, -, h5, hS, -, hO⟩ | ⟨-, -, -, -, h5, hS, -, hO⟩ |
      ⟨-, -, -, -, h5, hS, -, hO⟩ | ⟨-, -, -, -, -, hhit, hS, -, hO⟩ |
      ⟨hr, hp, hs3, hb4, h5, hmiss, -, hS, -, hO⟩ |
      ⟨-, -, -, -, -, -, hm, -, -⟩
  · refine ⟨by simp [hS], ⟨fun hdup => ?_, fun hc => ?_⟩⟩
    · rw [hO] at hdup
      exact absurd hdup (by simp)
    · exfalso
      obtain ⟨hreply, hparse, -, -, -, -⟩ := hc
      rcases h0 with h | h
      · rw [hreply] at h
        exact absurd h (by simp)
      · exact absurd h hparse
  · refine ⟨by simp [hS], ⟨fun hdup => ?_, fun hc => ?_⟩⟩
    · rw [hO] at hdup
      exact absurd hdup (by simp)
    · exact absurd h3 hc.2.2.1
  · refine ⟨by simp [hS], ⟨fun hdup => ?_, fun hc => ?_⟩⟩
    · rw [hO] at hdup
      exact absurd hdup (by simp)
    · rw [hc.2.2.2.1] at h4
      exact absurd h4 (by simp)
  · refine ⟨by simp [hS], ⟨fun hdup => ?_, fun hc => ?_⟩⟩
    · rw [hO] at hdup
      exact absurd hdup (by simp)
    · have hOK := check_ok_of_under_cap
        (decide (parse_message cfg.raiseCommands cfg.lowerCommands ev.text =
          ParserResult.RAISE)) hc.2.2.2.2.1
      rw [hOK] at h5
      exact absurd h5 (by simp)
  · refine ⟨by simp [hS], ⟨fun hdup => ?_, fun hc => ?_⟩⟩
    · rw [hO] at hdup
      exact absurd hdup (by simp)
    · have hOK := check_ok_of_under_cap
        (decide (parse_message cfg.raiseCommands cfg.lowerCommands ev.text =
          ParserResult.RAISE)) hc.2.2.2.2.1
      rw [hOK] at h5
      exact absurd h5 (by simp)
  · refine ⟨by simp [hS], ⟨fun hdup => ?_, fun hc => ?_⟩⟩
    · rw [hO] at hdup
      exact absurd hdup (by simp)
    · have hOK := check_ok_of_under_cap
        (decide (parse_message cfg.raiseCommands cfg.lowerCommands ev.text =
          ParserResult.RAISE)) hc.2.2.2.2.1
      rw [hOK] at h5
      exact absurd h5 (by simp)
  · refine ⟨by simp [hS], ⟨fun hdup => ?_, fun hc => ?_⟩⟩
    · rw [hO] at hdup
      exact absurd hdup (by simp)
    · rw [hc.2.2.2.2.2] at hhit
      exact absurd hhit (by simp)
  · exact ⟨by simp [hS],
      ⟨fun _ => ⟨hr, hp, hs3, hb4, under_cap_of_check_ok h5, hmiss⟩, fun _ => hO⟩⟩
  · rw [hmarked] at hm
    exact absurd hm (by simp)

/-- Witness for C8 (amended): user 10 already scored message 100; a new
lower attempt changes nothing and the denial is the duplicate denial, with
the admission and revenge conditions holding. -/
theorem marked_message_frame_witness :
    is_user_changed_karma_on_message markedState.used_messages 1 10 100 = true ∧
    (((handlerState cfgUnit markedState lowerEvent nowT).karma = markedState.karma ∧
      (handlerState cfgUnit markedState lowerEvent nowT).stats = markedState.stats ∧
      (handlerState cfgUnit markedState lowerEvent nowT).used_messages =
        markedState.used_messages ∧
      (handlerState cfgUnit markedState lowerEvent nowT).last_actions =
        markedState.last_actions ∧
      (handlerState cfgUnit markedState lowerEvent nowT).last_karma_minus =
        markedState.last_karma_minus) ∧
     (handlerOutcome cfgUnit markedState lowerEvent nowT = Outcome.duplicateMessage ↔
       (lowerEvent.is_reply = true ∧
        parse_message cfgUnit.raiseCommands cfgUnit.lowerCommands lowerEvent.text ≠
          ParserResult.NOTHING ∧
        lowerEvent.from_user_id ≠ lowerEvent.user_id ∧
        lowerEvent.target_is_bot = false ∧
        get_karma_changes_today markedState.stats lowerEvent.chat_id
          lowerEvent.from_user_id nowT.day < cfgUnit.dailyCap ∧
        revenge_hit markedState.last_karma_minus lowerEvent.chat_id
          lowerEvent.from_user_id lowerEvent.user_id nowT = false))) :=
  ⟨by decide, marked_message_frame cfgUnit markedState lowerEvent nowT (by decide)⟩

/-! ## C10: username upsert precedes every check -/

/-- The outcomes the handler reports when a karma change is denied. -/
def isDeniedOutcome : Outcome → Bool
  | Outcome.selfTarget => true
  | Outcome.botTarget => true
  | Outcome.timeout => true
  | Outcome.changeDenied => true
  | Outcome.dayMaxExceed => true
  | Outcome.revengeBlocked => true
  | Outcome.duplicateMessage => true
  | _ => false

/-- C10: on every reply classified as RAISE or LOWER the handler upserts
the reply target's username before any check (the trace starts with the
username step and the final username table is the upserted one), and on
every denial all other stores are unchanged. -/
theorem username_upsert_and_denial_frame (cfg : Config) (s : BotState) (ev : MessageEvent)
    (now : DateTime)
    (hreply : ev.is_reply = true)
    (hparse : parse_message cfg.raiseCommands cfg.lowerCommands ev.text ≠
      ParserResult.NOTHING) :
    (handlerState cfg s ev now).usernames =
      set_username s.usernames ev.user_id ev.user_name ∧
    (handlerTrace cfg s ev now).head? = some Event.setUsername ∧
    (isDeniedOutcome (handlerOutcome cfg s ev now) = true →
      (handlerState cfg s ev now).karma = s.karma ∧
      (handlerState cfg s ev now).stats = s.stats ∧
      (handlerState cfg s ev now).used_messages = s.used_messages ∧
      (handlerState cfg s ev now).last_actions = s.last_actions ∧
      (handlerState cfg s ev now).last_karma_minus = s.last_karma_minus) := by
  rcases handler_shape cfg s ev now with
      ⟨h0, -, -, -⟩ | ⟨-, -, -, hS, hT, -⟩ | ⟨-, -, -, -, hS, hT, -⟩ |
      ⟨-, -, -, -, -, hS, hT, -⟩ | ⟨-, -, -, -, -, hS, hT, -⟩ |
      ⟨-, -, -, -, -, hS, hT, -⟩ | ⟨-, -, -, -, -, -, hS, hT, -⟩ |
      ⟨-, -, -, -, -, -, -, hS, hT, -⟩ |
      ⟨-, -, -, -, -, -, -, hu, hB⟩
  · rcases h0 with h | h
    · rw [hreply] at h
      exact absurd h (by simp)
    · exact absurd h hparse
  · exact ⟨by simp [hS], by simp [hT], fun _ => by simp [hS]⟩
  · exact ⟨by simp [hS], by simp [hT], fun _ => by simp [hS]⟩
  · exact ⟨by simp [hS], by simp [hT], fun _ => by simp [hS]⟩
  · exact ⟨by simp [hS], by simp [hT], fun _ => by simp [hS]⟩
  · exact ⟨by simp [hS], by simp [hT], fun _ => by simp [hS]⟩
  · exact ⟨by simp [hS], by simp [hT], fun _ => by simp [hS]⟩
  · exact ⟨by simp [hS], by simp [hT], fun _ => by simp [hS]⟩
  · refine ⟨hu, ?_, ?_⟩
    · rcases hB with ⟨hT, -⟩ | ⟨-, hT, -⟩ | ⟨-, hT, -⟩ <;>
        simp [hT, traceAdmitRaise, traceAdmitLower]
    · intro hden
      exfalso
      rcases hB with ⟨-, hO⟩ | ⟨-, -, hO | ⟨k, hO⟩⟩ | ⟨-, -, hO | ⟨k, hO⟩⟩ <;>
        (rw [hO] at hden; simp [isDeniedOutcome] at hden)

/-- Witness for C10 at a denied raise attempt (revenge-blocked). -/
theorem username_upsert_and_denial_frame_witness :
    (handlerState cfgUnit revengeState raiseEvent nowT).usernames =
      set_username revengeState.usernames raiseEvent.user_id raiseEvent.user_name ∧
    (handlerTrace cfgUnit revengeState raiseEvent nowT).head? = some Event.setUsername ∧
    (isDeniedOutcome (handlerOutcome cfgUnit revengeState raiseEvent nowT) = true →
      (handlerState cfgUnit revengeState raiseEvent nowT).karma = revengeState.karma ∧
      (handlerState cfgUnit revengeState raiseEvent nowT).stats = revengeState.stats ∧
      (handlerState cfgUnit revengeState raiseEvent nowT).used_messages =
        revengeState.used_messages ∧
      (handlerState cfgUnit revengeState raiseEvent nowT).last_actions =
        revengeState.last_actions ∧
      (handlerState cfgUnit revengeState raiseEvent nowT).last_karma_minus =
        revengeState.last_karma_minus) :=
  username_upsert_and_denial_frame cfgUnit revengeState raiseEvent nowT rfl (by decide)

end Skarma
